import Mathlib

/-!
Verification of the recording-storage service and the authentication
service of a mobile audio-recording application.

The storage service (a JavaScript module over AsyncStorage and
FileSystem) manages a ledger of recording-metadata records persisted
as one serialized list.  We embed it shallowly: the persisted ledger
is a `List Recording`, a JavaScript object spread `{...r, ...p}` is a
field-wise right-biased override (`spreadOver`), and the
nondeterministic inputs (generated uuid, current timestamp, filesystem
success) are explicit parameters.  Fallible operations return
`Except String` paired with the ledger state that is persisted when
the operation finishes; a `catch` block that rewraps errors is
modelled by mapping every inner error to the generic message the
source throws.

The authentication service (a Java Spring service) is embedded with
the user repository as a `List UserModel` and the password encoder and
token signer as abstract function parameters.
-/

/-- The per-app recordings directory, `FileSystem.documentDirectory + "recordings/"`.
The document directory is device-specific; any fixed string models it. -/
def recordingsDirectory : String := "file:///data/app/recordings/"

/-- The storage key under which the serialized ledger is persisted
(`RECORDINGS_METADATA_KEY`). -/
def recordingsMetadataKey : String := "recordings"

/-- A recording-metadata record, the element type of the ledger.  The
analysis payload is opaque to the storage service, so it is modelled
as an optional string (`null` is `none`). -/
structure Recording where
  id : String
  filename : String
  uri : String
  createdAt : String
  duration : Int
  size : Int
  analysisResult : Option String
deriving Repr, DecidableEq

/-- A caller-supplied JavaScript object holding any subset of the
record's fields: the `metadata` argument of `saveRecording` and the
`updates` argument of `updateRecording`.  An absent field is `none`;
the default value models the JavaScript default `{}`.  (A JavaScript
object may carry further keys, preserved verbatim by the spreads; no
claim inspects them, and they cannot affect the schema fields below.) -/
structure RecordingPatch where
  id : Option String := none
  filename : Option String := none
  uri : Option String := none
  createdAt : Option String := none
  duration : Option Int := none
  size : Option Int := none
  analysisResult : Option (Option String) := none
deriving Repr, DecidableEq

/-- JavaScript object spread `{...r, ...p}`: every key present in `p`
overrides the value from `r`; keys absent from `p` keep `r`'s value. -/
def spreadOver (r : Recording) (p : RecordingPatch) : Recording :=
  { id := p.id.getD r.id
    filename := p.filename.getD r.filename
    uri := p.uri.getD r.uri
    createdAt := p.createdAt.getD r.createdAt
    duration := p.duration.getD r.duration
    size := p.size.getD r.size
    analysisResult := p.analysisResult.getD r.analysisResult }

/-- JavaScript `v || 0` for a possibly-absent numeric field: `0` when
the field is absent, and also when it is `0` (falsy); the value
otherwise. -/
def jsOrZero (v : Option Int) : Int :=
  match v with
  | none => 0
  | some d => if d = 0 then 0 else d

/-- The record object literal built by `saveRecording`:
`{ id, filename, uri, createdAt, duration: metadata.duration || 0,
size: metadata.size || 0, analysisResult: null, ...metadata }`.
The trailing spread comes last, so caller-supplied keys override the
system-computed ones. -/
def buildRecording (genId now : String) (metadata : RecordingPatch) : Recording :=
  let filename := "recording_" ++ genId ++ ".m4a"
  let destinationUri := recordingsDirectory ++ filename
  spreadOver
    { id := genId
      filename := filename
      uri := destinationUri
      createdAt := now
      duration := jsOrZero metadata.duration
      size := jsOrZero metadata.size
      analysisResult := none }
    metadata

/-- Operation `saveRecording(uri, metadata)`: copy the source file into the
recordings directory (success is the explicit `copyOk` parameter),
build the record, prepend it to the ledger and persist.  On copy
failure the catch block throws `Failed to save recording` and the
ledger is left as it was.  `genId` is the freshly generated uuid and
`now` the current ISO timestamp, made explicit parameters. -/
def saveRecording (copyOk : Bool) (genId now sourceUri : String)
    (metadata : RecordingPatch) (recs : List Recording) :
    Except String Recording × List Recording :=
  if copyOk then
    let recording := buildRecording genId now metadata
    (Except.ok recording, recording :: recs)
  else
    (Except.error "Failed to save recording", recs)

/-- Operation `getRecordings()`: returns the deserialized ledger verbatim. -/
def getRecordings (recs : List Recording) : List Recording := recs

/-- Operation `getRecordingById(id)`: linear scan
`recordings.find(recording => recording.id === id) || null`. -/
def getRecordingById (id : String) (recs : List Recording) : Option Recording :=
  (getRecordings recs).find? (fun recording => recording.id == id)

/-- The map inside `updateRecording(id, updates)`: every record whose
`id` matches is replaced by the spread `{...recording, ...updates}`;
the rest are kept as they are. -/
def applyUpdates (id : String) (updates : RecordingPatch)
    (recs : List Recording) : List Recording :=
  recs.map (fun recording =>
    if recording.id == id then spreadOver recording updates else recording)

/-- Operation `updateRecording(id, updates)`: persist the mapped list
(success is the explicit `writeOk` parameter) and return
`updatedRecordings.find(r => r.id === id)` — the lookup runs on the
updated list.  On persistence failure the catch block throws
`Failed to update recording` and the old ledger stays persisted. -/
def updateRecording (writeOk : Bool) (id : String) (updates : RecordingPatch)
    (recs : List Recording) :
    Except String (Option Recording) × List Recording :=
  let updatedRecordings := applyUpdates id updates recs
  if writeOk then
    (Except.ok (updatedRecordings.find? (fun r => r.id == id)), updatedRecordings)
  else
    (Except.error "Failed to update recording", recs)

/-- The errors that can arise inside `deleteRecording`'s try block:
the explicit `throw new Error('Recording not found')` and a failing
`FileSystem.deleteAsync`. -/
inductive DeleteInnerErr where
  | notFound
  | ioError
deriving Repr, DecidableEq

/-- The try block of `deleteRecording(id)`: find the record, throw
`notFound` if absent, delete the blob at its `uri` (success is the
`blobDeleteOk` predicate), then persist the ledger filtered by
`r.id !== id`.  The returned list is the ledger persisted when the
block finishes: unchanged on every error path, since the write comes
after the deletion. -/
def deleteRecordingTry (blobDeleteOk : String → Bool) (id : String)
    (recs : List Recording) :
    Except DeleteInnerErr Bool × List Recording :=
  match (getRecordings recs).find? (fun r => r.id == id) with
  | none => (Except.error DeleteInnerErr.notFound, recs)
  | some recordingToDelete =>
    if blobDeleteOk recordingToDelete.uri then
      (Except.ok true, recs.filter (fun r => !(r.id == id)))
    else
      (Except.error DeleteInnerErr.ioError, recs)

/-- Operation `deleteRecording(id)` as observed by the caller: the catch block
rewraps every inner error — the not-found throw included — as the one
generic `Failed to delete recording` error. -/
def deleteRecording (blobDeleteOk : String → Bool) (id : String)
    (recs : List Recording) : Except String Bool × List Recording :=
  match deleteRecordingTry blobDeleteOk id recs with
  | (Except.ok b, l) => (Except.ok b, l)
  | (Except.error _, l) => (Except.error "Failed to delete recording", l)

/-- One `saveRecording` call of a sequence: its generated uuid, its
timestamp, its source uri and its metadata argument. -/
structure SaveCall where
  genId : String
  now : String
  sourceUri : String
  metadata : RecordingPatch := {}
deriving Repr

/-- Run a sequence of successful `saveRecording` calls left to right,
threading the persisted ledger. -/
def runSaves (calls : List SaveCall) (recs : List Recording) : List Recording :=
  calls.foldl
    (fun st c => (saveRecording true c.genId c.now c.sourceUri c.metadata st).2)
    recs

/-- A user record of the authentication backend (`UserModel`). -/
structure UserModel where
  id : String
  username : String
  email : String
  password : String
  role : String
deriving Repr, DecidableEq

/-- Endpoint `UserService.register`: reject with 400 if the email already
exists; otherwise encode the password, force the role to `ROLE_USER`,
save, and answer 201.  The response is a (status, body) pair; the
second component of the result is the repository after the call. -/
def register (encode : String → String) (users : List UserModel)
    (user : UserModel) : (Nat × String) × List UserModel :=
  if users.any (fun u => u.email == user.email) then
    ((400, "Email already in use"), users)
  else
    let stored : UserModel :=
      { user with password := encode user.password, role := "ROLE_USER" }
    ((201, "User registered successfully"), users ++ [stored])

/-- Endpoint `UserService.login`: look the user up by email; answer 401 with
the fixed message if the email is absent or the password does not
match, and 200 with a generated token otherwise.  `pwMatches raw enc`
models `passwordEncoder.matches` and `genToken` models
`jwtUtil.generateToken`. -/
def login (pwMatches : String → String → Bool) (genToken : String → String)
    (users : List UserModel) (user : UserModel) : Nat × String :=
  match users.find? (fun u => u.email == user.email) with
  | none => (401, "Invalid email or password")
  | some existingUser =>
    if !(pwMatches user.password existingUser.password) then
      (401, "Invalid email or password")
    else
      (200, genToken existingUser.email)

/-- A sample ledger entry used as a concrete input by several
counterexamples and witnesses, shaped like a record produced by a
past successful save. -/
def recA : Recording :=
  { id := "a"
    filename := "recording_a.m4a"
    uri := recordingsDirectory ++ "recording_a.m4a"
    createdAt := "2024-01-01T00:00:00Z"
    duration := 1
    size := 2
    analysisResult := none }

/-- C1 counterexample: calling `saveRecording` with a metadata object
carrying `id: "caller-id"` while the system generated `"gen-id"`
returns a record whose `id` is the caller's value, not the generated
one — the trailing `...metadata` spread overrides the system field,
so the caller value is not overwritten. -/
theorem saveRecording_system_fields_cex :
    ((saveRecording true "gen-id" "2024-01-01T00:00:00Z" "file:///tmp/r.m4a"
        { id := some "caller-id" } []).1.map Recording.id
      = Except.ok "caller-id") ∧
    ("caller-id" : String) ≠ "gen-id" := by
  exact ⟨rfl, by decide⟩

/-- C1 (amended): in the record returned by a successful
`saveRecording`, the fields `id`, `filename`, `uri`, `createdAt` hold
the system-generated values only as defaults: each equals the
caller-supplied value when the metadata object carries that key, and
the system-generated value otherwise. -/
theorem saveRecording_system_fields_are_defaults (genId now sourceUri : String)
    (metadata : RecordingPatch) (recs : List Recording) :
    ∃ r, (saveRecording true genId now sourceUri metadata recs).1 = Except.ok r ∧
      r.id = metadata.id.getD genId ∧
      r.filename = metadata.filename.getD ("recording_" ++ genId ++ ".m4a") ∧
      r.uri = metadata.uri.getD
        (recordingsDirectory ++ ("recording_" ++ genId ++ ".m4a")) ∧
      r.createdAt = metadata.createdAt.getD now := by
  exact ⟨buildRecording genId now metadata, rfl, rfl, rfl, rfl, rfl⟩

/-- C3: running any sequence of successful `saveRecording` calls from
any starting ledger yields the new records in exactly reverse call
order (most recent first), followed by the previously present records
in their prior order. -/
theorem runSaves_newest_first (calls : List SaveCall) (recs : List Recording) :
    runSaves calls recs =
      (calls.map (fun c => buildRecording c.genId c.now c.metadata)).reverse
        ++ recs := by
  induction calls generalizing recs with
  | nil => rfl
  | cons c cs ih =>
    show runSaves cs (buildRecording c.genId c.now c.metadata :: recs) = _
    rw [ih]
    simp

/-- C8: a login whose email is not registered answers 401, a login
whose email is registered but whose password does not match answers
401 with the identical body (the response does not reveal which field
was wrong), and a login whose email is registered with a matching
password answers 200 with a token body. -/
theorem login_responses (pwMatches : String → String → Bool)
    (genToken : String → String) (users : List UserModel) (user : UserModel) :
    (users.find? (fun u => u.email == user.email) = none →
        login pwMatches genToken users user = (401, "Invalid email or password")) ∧
    (∀ eu, users.find? (fun u => u.email == user.email) = some eu →
        pwMatches user.password eu.password = false →
        login pwMatches genToken users user = (401, "Invalid email or password")) ∧
    (∀ eu, users.find? (fun u => u.email == user.email) = some eu →
        pwMatches user.password eu.password = true →
        login pwMatches genToken users user = (200, genToken eu.email)) := by
  refine ⟨?_, ?_, ?_⟩
  · intro h
    simp [login, h]
  · intro eu h hm
    simp [login, h, hm]
  · intro eu h hm
    simp [login, h, hm]

/-- Witness for C8 at concrete inputs: an unknown email, a known email
with a wrong password (same body as the unknown-email case), and a
correct credential pair. -/
theorem login_responses_witness :
    (login (fun a b => a == b) (fun e => "token:" ++ e)
        [] ⟨"1", "u", "e@x", "pw", "ROLE_USER"⟩
      = (401, "Invalid email or password")) ∧
    (login (fun a b => a == b) (fun e => "token:" ++ e)
        [⟨"1", "u", "e@x", "hashed", "ROLE_USER"⟩] ⟨"2", "u", "e@x", "pw", ""⟩
      = (401, "Invalid email or password")) ∧
    (login (fun a b => a == b) (fun e => "token:" ++ e)
        [⟨"1", "u", "e@x", "pw", "ROLE_USER"⟩] ⟨"2", "u", "e@x", "pw", ""⟩
      = (200, "token:" ++ "e@x")) := by
  refine ⟨?_, ?_, ?_⟩
  · exact (login_responses (fun a b => a == b) (fun e => "token:" ++ e)
      [] ⟨"1", "u", "e@x", "pw", "ROLE_USER"⟩).1 (by decide)
  · exact (login_responses (fun a b => a == b) (fun e => "token:" ++ e)
      [⟨"1", "u", "e@x", "hashed", "ROLE_USER"⟩] ⟨"2", "u", "e@x", "pw", ""⟩).2.1
      ⟨"1", "u", "e@x", "hashed", "ROLE_USER"⟩ (by decide) (by decide)
  · exact (login_responses (fun a b => a == b) (fun e => "token:" ++ e)
      [⟨"1", "u", "e@x", "pw", "ROLE_USER"⟩] ⟨"2", "u", "e@x", "pw", ""⟩).2.2
      ⟨"1", "u", "e@x", "pw", "ROLE_USER"⟩ (by decide) (by decide)

/-- C9: every user present in the repository after a `register` call
was either already there before the call or is stored with role
exactly `ROLE_USER` — whatever role the caller supplied, a newly
registered user's stored role is `ROLE_USER`. -/
theorem register_forces_role_user (encode : String → String)
    (users : List UserModel) (user : UserModel) :
    ∀ stored ∈ (register encode users user).2,
      stored ∈ users ∨ stored.role = "ROLE_USER" := by
  intro stored hmem
  by_cases h : users.any (fun u => u.email == user.email)
  · left
    simpa [register, h] using hmem
  · simp only [register, h, if_neg, Bool.false_eq_true, not_false_eq_true,
      if_false, List.mem_append, List.mem_singleton] at hmem
    rcases hmem with h1 | h2
    · exact Or.inl h1
    · right
      rw [h2]

/-- Witness for C9: registering a user who asked for `ROLE_ADMIN` into
an empty repository stores them with role `ROLE_USER`. -/
theorem register_forces_role_user_witness :
    (⟨"1", "u", "e@x", "pw", "ROLE_USER"⟩ : UserModel) ∈ ([] : List UserModel) ∨
      (⟨"1", "u", "e@x", "pw", "ROLE_USER"⟩ : UserModel).role = "ROLE_USER" :=
  register_forces_role_user (fun s => s) [] ⟨"1", "u", "e@x", "pw", "ROLE_ADMIN"⟩
    ⟨"1", "u", "e@x", "pw", "ROLE_USER"⟩ (by decide)

/-- C2 counterexample: on a ledger holding the single record with id
`"a"`, `updateRecording("a", {id: "b"})` rewrites the ledger with the
record's `id` changed to `"b"` — the trailing `...updates` spread lets
a caller mutate `id` (and likewise `filename`, `uri`, `createdAt`),
so these fields are not immutable after save. -/
theorem updateRecording_immutable_fields_cex :
    ((updateRecording true "a" { id := some "b" } [recA]).2.map Recording.id
      = ["b"]) ∧
    ("b" : String) ≠ "a" := by
  exact ⟨rfl, by decide⟩

/-- C2 (amended): whenever the caller-supplied update object carries
none of the keys `id`, `filename`, `uri`, `createdAt`, every record's
`id`, `filename`, `uri` and `createdAt` are unchanged by
`updateRecording`; the four fields can only change when the caller
explicitly supplies them. -/
theorem updateRecording_preserves_unpatched_identity_fields (writeOk : Bool)
    (id : String) (updates : RecordingPatch) (recs : List Recording)
    (hid : updates.id = none) (hfn : updates.filename = none)
    (huri : updates.uri = none) (hca : updates.createdAt = none) :
    (updateRecording writeOk id updates recs).2.map
        (fun r => (r.id, r.filename, r.uri, r.createdAt)) =
      recs.map (fun r => (r.id, r.filename, r.uri, r.createdAt)) := by
  cases writeOk with
  | false => rfl
  | true =>
    show (applyUpdates id updates recs).map _ = _
    induction recs with
    | nil => rfl
    | cons r rs ih =>
      simp only [applyUpdates, List.map_cons] at ih ⊢
      rw [ih]
      by_cases h : (r.id == id) = true <;>
        simp [h, spreadOver, hid, hfn, huri, hca]

/-- Witness for C2 (amended): updating only `duration` on the sample
one-record ledger leaves the identity fields of the record intact. -/
theorem updateRecording_preserves_unpatched_identity_fields_witness :
    (updateRecording true "a" { duration := some 42 } [recA]).2.map
        (fun r => (r.id, r.filename, r.uri, r.createdAt)) =
      [recA].map (fun r => (r.id, r.filename, r.uri, r.createdAt)) :=
  updateRecording_preserves_unpatched_identity_fields true "a"
    { duration := some 42 } [recA] rfl rfl rfl rfl

/-- C5: when `id` matches no record in the ledger (every record's id
differs), `updateRecording` raises no error: the ledger is rewritten
with its contents unchanged and the caller receives an absent result. -/
theorem updateRecording_missing_id_noop (id : String)
    (updates : RecordingPatch) (recs : List Recording)
    (h : ∀ r ∈ recs, (r.id == id) = false) :
    updateRecording true id updates recs = (Except.ok none, recs) := by
  have hmap : applyUpdates id updates recs = recs := by
    induction recs with
    | nil => rfl
    | cons r rs ih =>
      simp only [applyUpdates, List.map_cons] at ih ⊢
      rw [h r (List.mem_cons_self r rs),
        ih (fun x hx => h x (List.mem_cons_of_mem r hx))]
      simp
  have hfind : recs.find? (fun r => r.id == id) = none := by
    rw [List.find?_eq_none]
    intro x hx
    simp [h x hx]
  show (Except.ok ((applyUpdates id updates recs).find? (fun r => r.id == id)),
      applyUpdates id updates recs) = _
  rw [hmap, hfind]

/-- Witness for C5: updating an id absent from the sample ledger
returns an absent result and leaves the ledger as it was. -/
theorem updateRecording_missing_id_noop_witness :
    updateRecording true "zzz" { duration := some 1 } [recA]
      = (Except.ok none, [recA]) :=
  updateRecording_missing_id_noop "zzz" { duration := some 1 } [recA] (by decide)

/-- C10 counterexample: `updateRecording` does preserve the ledger's
length, but not the sequence of record ids — updating the sample
ledger with `{id: "b"}` changes the id sequence from `["a"]` to
`["b"]`. -/
theorem updateRecording_id_sequence_cex :
    (updateRecording true "a" { id := some "b" } [recA]).2.map Recording.id
      ≠ [recA].map Recording.id := by
  decide

/-- C10 (amended): `updateRecording` never adds, removes or reorders
records — the ledger's length is always unchanged — and the sequence
of record ids is unchanged whenever the update object does not carry
an `id` key. -/
theorem updateRecording_preserves_length_and_ids (writeOk : Bool)
    (id : String) (updates : RecordingPatch) (recs : List Recording) :
    ((updateRecording writeOk id updates recs).2.length = recs.length) ∧
    (updates.id = none →
      (updateRecording writeOk id updates recs).2.map Recording.id
        = recs.map Recording.id) := by
  cases writeOk with
  | false => exact ⟨rfl, fun _ => rfl⟩
  | true =>
    constructor
    · show (applyUpdates id updates recs).length = recs.length
      simp [applyUpdates]
    · intro hid
      show (applyUpdates id updates recs).map Recording.id = _
      induction recs with
      | nil => rfl
      | cons r rs ih =>
        simp only [applyUpdates, List.map_cons] at ih ⊢
        rw [ih]
        by_cases h : (r.id == id) = true <;> simp [h, spreadOver, hid]

/-- Witness for C10 (amended): an `id`-free update on the sample
ledger keeps both the length and the id sequence. -/
theorem updateRecording_preserves_length_and_ids_witness :
    ((updateRecording true "a" { duration := some 42 } [recA]).2.length
      = [recA].length) ∧
    ((updateRecording true "a" { duration := some 42 } [recA]).2.map Recording.id
      = [recA].map Recording.id) :=
  ⟨(updateRecording_preserves_length_and_ids true "a"
      { duration := some 42 } [recA]).1,
   (updateRecording_preserves_length_and_ids true "a"
      { duration := some 42 } [recA]).2 rfl⟩

/-- Helper: a ledger filtered by `r.id !== id` contains no record found
by a scan for `r.id === id`. -/
theorem find?_filter_not_id (id : String) (l : List Recording) :
    (l.filter (fun r => !(r.id == id))).find? (fun r => r.id == id) = none := by
  induction l with
  | nil => rfl
  | cons r rs ih =>
    by_cases h : (r.id == id) = true <;>
      simp [List.filter_cons, h, List.find?, ih]

/-- Helper: when the try block of `deleteRecording` succeeds, the
persisted ledger is the original filtered by `r.id !== id`. -/
theorem deleteRecordingTry_ok_ledger (blobDeleteOk : String → Bool)
    (id : String) (recs l : List Recording) (b : Bool)
    (h : deleteRecordingTry blobDeleteOk id recs = (Except.ok b, l)) :
    l = recs.filter (fun r => !(r.id == id)) := by
  unfold deleteRecordingTry getRecordings at h
  rcases hfind : recs.find? (fun r => r.id == id) with _ | rtd <;>
    rw [hfind] at h
  · simp at h
  · by_cases hb : blobDeleteOk rtd.uri = true <;> simp [hb] at h
    exact h.2.symm

/-- C4: immediately after a successful `saveRecording` returning record
`r`, `getRecordingById(r.id)` on the resulting ledger finds and
returns `r`; and immediately after a `deleteRecording(id)` that
succeeded, `getRecordingById(id)` on the resulting ledger returns
absent, not an error. -/
theorem save_then_get_and_delete_then_get (genId now sourceUri : String)
    (metadata : RecordingPatch) (recs : List Recording)
    (blobDeleteOk : String → Bool) (id : String) :
    (∀ r l, saveRecording true genId now sourceUri metadata recs
        = (Except.ok r, l) → getRecordingById r.id l = some r) ∧
    ((deleteRecording blobDeleteOk id recs).1 = Except.ok true →
      getRecordingById id (deleteRecording blobDeleteOk id recs).2 = none) := by
  constructor
  · intro r l heq
    have heq' : (Except.ok (buildRecording genId now metadata),
        buildRecording genId now metadata :: recs) = (Except.ok r, l) := heq
    obtain ⟨h1, h2⟩ := Prod.mk.injEq .. ▸ heq'
    have hr : buildRecording genId now metadata = r := by
      injection h1
    subst hr
    subst h2
    simp [getRecordingById, getRecordings, List.find?]
  · intro hok
    rcases htry : deleteRecordingTry blobDeleteOk id recs with ⟨st, l⟩
    cases st with
    | error e =>
      rw [show deleteRecording blobDeleteOk id recs
          = (Except.error "Failed to delete recording", l) by
        unfold deleteRecording
        rw [htry]] at hok
      exact absurd hok (by simp)
    | ok b =>
      have hl := deleteRecordingTry_ok_ledger blobDeleteOk id recs l b htry
      rw [show deleteRecording blobDeleteOk id recs = (Except.ok b, l) by
        unfold deleteRecording
        rw [htry]]
      rw [hl]
      exact find?_filter_not_id id recs

/-- Witness for C4 at concrete inputs: look up the freshly saved
record's id on the ledger produced by saving into an empty ledger, and
look up `"a"` after successfully deleting it from the sample ledger. -/
theorem save_then_get_and_delete_then_get_witness :
    getRecordingById (buildRecording "a" "t0" {}).id
        [buildRecording "a" "t0" {}] = some (buildRecording "a" "t0" {}) ∧
    getRecordingById "a" (deleteRecording (fun _ => true) "a" [recA]).2
      = none := by
  constructor
  · exact (save_then_get_and_delete_then_get "a" "t0" "file:///tmp/r.m4a"
      {} [] (fun _ => true) "a").1 (buildRecording "a" "t0" {})
      [buildRecording "a" "t0" {}] rfl
  · exact (save_then_get_and_delete_then_get "a" "t0" "file:///tmp/r.m4a"
      {} [recA] (fun _ => true) "a").2 rfl

/-- C6 counterexample: deleting a missing id throws the same generic
`Failed to delete recording` error that a blob-deletion failure
throws — the internal `Recording not found` throw is caught by the
function's own catch block and rewrapped, so the caller cannot
distinguish a not-found failure from a storage failure. -/
theorem deleteRecording_notFound_indistinguishable_cex :
    ((deleteRecording (fun _ => true) "a" []).1
      = Except.error "Failed to delete recording") ∧
    ((deleteRecording (fun _ => false) "a" [recA]).1
      = Except.error "Failed to delete recording") ∧
    ("Failed to delete recording" : String) ≠ "Recording not found" := by
  exact ⟨rfl, rfl, by decide⟩

/-- C6 (amended): `deleteRecording` on an id matching no record leaves
the persisted ledger completely unchanged and signals an error — but
the error is the generic `Failed to delete recording`, identical to
the one signalled on a blob-deletion failure, because the catch block
swallows the internal not-found throw. -/
theorem deleteRecording_missing_id (blobDeleteOk : String → Bool)
    (id : String) (recs : List Recording)
    (h : recs.find? (fun r => r.id == id) = none) :
    deleteRecording blobDeleteOk id recs
      = (Except.error "Failed to delete recording", recs) := by
  unfold deleteRecording deleteRecordingTry getRecordings
  rw [h]

/-- Witness for C6 (amended): deleting id `"zzz"` from the sample
ledger errs and leaves the ledger as it was. -/
theorem deleteRecording_missing_id_witness :
    deleteRecording (fun _ => true) "zzz" [recA]
      = (Except.error "Failed to delete recording", [recA]) :=
  deleteRecording_missing_id (fun _ => true) "zzz" [recA] (by decide)

/-- C7: when `deleteRecording(id)` finds a matching record but the
deletion of its blob fails, the operation propagates an error and the
persisted ledger is completely unchanged — in particular the matching
record is not removed, since the ledger write only happens after the
blob deletion succeeds. -/
theorem deleteRecording_blob_failure_keeps_ledger (blobDeleteOk : String → Bool)
    (id : String) (recs : List Recording) (recordingToDelete : Recording)
    (hfind : recs.find? (fun r => r.id == id) = some recordingToDelete)
    (hfail : blobDeleteOk recordingToDelete.uri = false) :
    deleteRecording blobDeleteOk id recs
      = (Except.error "Failed to delete recording", recs) := by
  unfold deleteRecording deleteRecordingTry getRecordings
  rw [hfind]
  simp [hfail]

/-- Witness for C7: a blob store whose deletion always fails makes
deleting `"a"` from the sample ledger err while keeping the record. -/
theorem deleteRecording_blob_failure_keeps_ledger_witness :
    deleteRecording (fun _ => false) "a" [recA]
      = (Except.error "Failed to delete recording", [recA]) :=
  deleteRecording_blob_failure_keeps_ledger (fun _ => false) "a" [recA] recA
    (by decide) rfl
